import Mathlib

/-!
Verification development for the data-validation core of the soccerdata
project (`scripts/data_validator.py`).  The pandas `DataFrame` consumed by
`DataValidator.validate_dataframe` is modelled as a column-major table of
tagged cell values; each `_validate_*` rule, the quality scorer and the
orchestrator are translated function-by-function from the Python source.

Modelling conventions (each noted again at the definition it concerns):
* Python floats are modelled as rationals; a missing value (`NaN`/`None`,
  i.e. anything `pd.isna` accepts) is the dedicated cell `Value.vNull`.
* Dataframes model post-parse pandas frames (as produced by `pd.read_csv`
  or the test suite's `pd.DataFrame` literals): a numeric column that
  contains nulls holds float cells, row labels are the default
  `RangeIndex`, so the row index of a cell is its position.
* Display-only finding fields that no branch of the validator reads
  (`missing_percentage`, `expected_pattern`, numeric formatting of the
  summary) are elided or simplified; every field that any branch inspects
  (`type`, `severity`, `column`, `rows`, the untruncated totals) is kept.
-/

/-- A cell of a dataframe: string, int, float (as a rational), a
`datetime.date`-like object, or a missing value (`NaN`, detected by
`pd.isna`). -/
inductive Value where
  | vStr (s : String)
  | vInt (n : Int)
  | vFloat (q : ℚ)
  | vDate (y m d : Nat)
  | vNull
deriving DecidableEq, Repr

def Value.isNull : Value → Bool
  | .vNull => true
  | _ => false

/-- Python truth of `hasattr(value, 'year')`: only date-like cells. -/
def Value.hasYear : Value → Bool
  | .vDate _ _ _ => true
  | _ => false

/-- Pandas element-wise `==` between two cells.  `NaN` compares unequal to
everything (including itself); ints and floats compare by numeric value. -/
def pyEq : Value → Value → Bool
  | .vNull, _ => false
  | _, .vNull => false
  | .vStr a, .vStr b => a = b
  | .vInt a, .vInt b => a = b
  | .vInt a, .vFloat b => (a : ℚ) = b
  | .vFloat a, .vInt b => a = (b : ℚ)
  | .vFloat a, .vFloat b => a = b
  | .vDate a b c, .vDate d e f => a = d && b = e && c = f
  | _, _ => false

/-- Cell equality as used by `DataFrame.duplicated`: same as `pyEq` except
that missing values are treated as equal to each other (pandas hashes
`NaN` to itself when detecting duplicate rows). -/
def pyEqNaN : Value → Value → Bool
  | .vNull, .vNull => true
  | a, b => pyEq a b

/-- Python `str(value)` restricted to what the validator feeds to its two
regexes.  The exact float rendering is abstract: like Python's (which
always contains a dot or exponent), it can match neither the date shape
nor the match-report shape, and those regexes are the only consumers. -/
def pyStr : Value → String
  | .vStr s => s
  | .vInt n => toString n
  | .vFloat q => toString q
  | .vDate y m d => toString y ++ "-" ++ toString m ++ "-" ++ toString d
  | .vNull => "nan"

/-- A pandas dataframe, column-major: the listed order of `cols` is the
column order of the frame, each column carrying its cells in row order. -/
structure DataFrame where
  cols : List (String × List Value)
deriving DecidableEq, Repr

/-- `df.columns` as a list of names. -/
def DataFrame.colNames (df : DataFrame) : List String := df.cols.map Prod.fst

/-- `len(df)`: the length of the (shared) row index. -/
def DataFrame.numRows (df : DataFrame) : Nat :=
  match df.cols with
  | [] => 0
  | c :: _ => c.2.length

/-- `column in df.columns`. -/
def DataFrame.hasCol (df : DataFrame) (c : String) : Bool :=
  df.colNames.contains c

/-- `df[c]` as the list of cells of the first column named `c`. -/
def DataFrame.getCol (df : DataFrame) (c : String) : List Value :=
  match df.cols.find? (fun p => p.1 == c) with
  | some p => p.2
  | none => []

/-- The cell of column `c` at row index `i`. -/
def DataFrame.cell (df : DataFrame) (c : String) (i : Nat) : Value :=
  (df.getCol c).getD i .vNull

/-- Well-formedness of a dataframe: every column has exactly `numRows`
cells (true of every real pandas frame). -/
def DataFrame.WF (df : DataFrame) : Prop :=
  ∀ p ∈ df.cols, p.2.length = df.numRows

instance (df : DataFrame) : Decidable df.WF := by
  unfold DataFrame.WF; infer_instance

/-- One validation finding: the dict appended to the errors or warnings
list by a rule checker.  `colList` renders the `columns` key of the two
schema findings, `rows` the (possibly display-truncated) row list, and
`total` the untruncated count field (`total_invalid` / `total_count` /
`total_empty` / `total_duplicates` / `missing_count`). -/
structure Finding where
  ftype : String
  severity : String
  message : String
  column : Option String := none
  colList : List String := []
  rows : List Nat := []
  total : Nat := 0
deriving DecidableEq, Repr

/-- The recognized configuration options with their default values from
`DataValidator._load_config`. -/
structure ValidationConfig where
  minQualityScore : ℚ := 95
  maxMissingPercentage : ℚ := 5
  allowFutureMatches : Bool := true
  strictLeagueValidation : Bool := true
  enableDuplicateCheck : Bool := true
deriving DecidableEq, Repr

def defaultConfig : ValidationConfig := {}

/-- The `ValidationResult` dataclass. -/
structure ValidationResult where
  isValid : Bool
  totalRecords : Nat
  errors : List Finding
  warnings : List Finding
  qualityScore : ℚ
  summary : String
deriving DecidableEq

/-- Keys of `DataValidator.EXPECTED_SCHEMA`, in dict insertion order. -/
def expectedSchemaKeys : List String :=
  ["league", "season", "date", "home_team", "away_team",
   "match_report", "home_score", "away_score", "day_of_week"]

/-- `DataValidator.VALID_LEAGUES`. -/
def validLeagues : List String :=
  ["ENG-Premier League", "ESP-La Liga", "ITA-Serie A",
   "GER-Bundesliga", "FRA-Ligue 1", "Big 5 European Leagues Combined"]

/-- A pandas series has `object` dtype (so that the `.str` accessor is
legal) exactly when it holds a string or another Python object such as a
date; an empty column read from CSV is also `object`.  A column of plain
ints/floats, or of numbers and `NaN` only, is a numeric dtype on which
`.str` raises. -/
def seriesDtypeObject (vals : List Value) : Bool :=
  vals.isEmpty ||
    vals.any (fun v => match v with
      | .vStr _ => true
      | .vDate _ _ _ => true
      | _ => false)

/-- Calendar helpers for `datetime.strptime(s, "%Y-%m-%d")`. -/
def isLeapYear (y : Nat) : Bool :=
  y % 4 == 0 && (y % 100 != 0 || y % 400 == 0)

def daysInMonth (y m : Nat) : Nat :=
  if m == 2 then (if isLeapYear y then 29 else 28)
  else if m == 4 || m == 6 || m == 9 || m == 11 then 30
  else 31

def digitVal (c : Char) : Nat := c.toNat - '0'.toNat

/-- Parse a string that already has the `\d{4}-\d{2}-\d{2}` lexical shape
of `DATE_PATTERN` into a valid calendar date, or fail, mirroring the
regex test followed by `datetime.strptime` (which also rejects year 0).
A trailing-newline string passes Python's `$` but then fails `strptime`,
so folding both tests into one parser classifies every cell the same way
the source does. -/
def parseIsoDate (s : String) : Option (Nat × Nat × Nat) :=
  match s.data with
  | [a, b, c, d, h1, e, f, h2, g, h] =>
    if (a.isDigit && b.isDigit && c.isDigit && d.isDigit &&
        h1 == '-' && e.isDigit && f.isDigit && h2 == '-' &&
        g.isDigit && h.isDigit) then
      let y := digitVal a * 1000 + digitVal b * 100 + digitVal c * 10 + digitVal d
      let m := digitVal e * 10 + digitVal f
      let dy := digitVal g * 10 + digitVal h
      if 1 ≤ y && 1 ≤ m && m ≤ 12 && 1 ≤ dy && dy ≤ daysInMonth y m then
        some (y, m, dy)
      else none
    else none
  | _ => none

def hexDigit (c : Char) : Bool :=
  (('0' ≤ c && c ≤ '9') || ('a' ≤ c && c ≤ 'f'))

/-- The tail of `MATCH_REPORT_PATTERN` after the slash that follows the
hash: `.*$` under `re.match`, i.e. no interior newline, with at most one
trailing newline absorbed by `$`. -/
def reportTailOk : List Char → Bool
  | [] => true
  | ['\n'] => true
  | c :: rest => !(c == '\n') && reportTailOk rest

/-- `MATCH_REPORT_PATTERN.match`: the regex
`^/en/matches/[a-f0-9]{8}/.*$` applied to a whole string. -/
def matchReportMatch (s : String) : Bool :=
  let cs := s.data
  if cs.take 12 == "/en/matches/".data then
    let rest := cs.drop 12
    let h := rest.take 8
    (h.length == 8 && h.all hexDigit &&
      match rest.drop 8 with
      | '/' :: t => reportTailOk t
      | _ => false)
  else false

/-- The `_validate_schema` rule.  Both findings go into the single list
this checker returns, which `validate_dataframe` extends the errors list
with; the column-name lists stand in for Python's set differences (same
members, first-occurrence order). -/
def validateSchema (df : DataFrame) : List Finding :=
  let present := df.colNames.eraseDups
  let missing := expectedSchemaKeys.filter (fun c => !present.contains c)
  let unexpected := present.filter (fun c => !expectedSchemaKeys.contains c)
  (if missing.isEmpty then []
   else [{ ftype := "schema_error", severity := "critical",
           message := "Missing required columns: " ++ String.intercalate ", " missing,
           colList := missing }]) ++
  (if unexpected.isEmpty then []
   else [{ ftype := "schema_warning", severity := "warning",
           message := "Unexpected columns found: " ++ String.intercalate ", " unexpected,
           colList := unexpected }])

/-- The runtime types `EXPECTED_SCHEMA` may name for a column.  `tNone`
is `type(None)`, `tDateTag` the `'datetime.date'` marker string. -/
inductive PyTy where
  | tStr
  | tInt
  | tFloat
  | tNone
  | tDateTag
deriving DecidableEq

/-- `EXPECTED_SCHEMA` per column (tuples flattened to lists). -/
def expectedTypes : String → List PyTy
  | "league" => [.tStr]
  | "season" => [.tStr, .tInt]
  | "date" => [.tStr, .tDateTag]
  | "home_team" => [.tStr]
  | "away_team" => [.tStr]
  | "match_report" => [.tStr, .tNone]
  | "home_score" => [.tFloat, .tInt, .tNone]
  | "away_score" => [.tFloat, .tInt, .tNone]
  | "day_of_week" => [.tStr]
  | _ => []

/-- `isinstance(value, t)` for a cell obtained by iterating a series.
A numeric-dtype column yields numpy scalars: `np.int64` is not a Python
`int` (hence `objDtype`, true only for object-dtype columns, gates the
int case), while `np.float64` subclasses `float`. -/
def pyIsInstance (objDtype : Bool) : Value → PyTy → Bool
  | .vStr _, .tStr => true
  | .vInt _, .tInt => objDtype
  | .vFloat _, .tFloat => true
  | _, _ => false

/-- Whether `_validate_data_types` counts the cell at one row of `column`
as invalid. -/
def typeCellInvalid (column : String) (objDtype : Bool) (v : Value) : Bool :=
  let tys := expectedTypes column
  if v.isNull then !tys.contains .tNone
  else if column == "date" && v.hasYear then false
  else !(tys.any (fun t =>
    !(t == .tNone) && !(t == .tDateTag) && pyIsInstance objDtype v t))

/-- The `_validate_data_types` rule: one `high` finding per schema column
that is present and has offending cells, rows capped at 10 for display
with the exact total kept. -/
def validateDataTypes (df : DataFrame) : List Finding :=
  expectedSchemaKeys.filterMap (fun column =>
    if !df.hasCol column then none
    else
      let vals := df.getCol column
      let objD := seriesDtypeObject vals
      let invalid := (List.range vals.length).filter
        (fun i => typeCellInvalid column objD (vals.getD i .vNull))
      if invalid.isEmpty then none
      else some { ftype := "data_type_error", severity := "high",
                  column := some column,
                  message := "Invalid data types in column " ++ column,
                  rows := invalid.take 10, total := invalid.length })

/-- Parse one cell of the `date` column the way `_validate_dates` does:
date-like objects pass as-is, strings via regex plus `strptime`, and
anything else (null included) fails. -/
def dateCellParse : Value → Option (Nat × Nat × Nat)
  | .vDate y m d => some (y, m, d)
  | .vStr s => parseIsoDate s
  | .vInt n => parseIsoDate (pyStr (.vInt n))
  | .vFloat q => parseIsoDate (pyStr (.vFloat q))
  | .vNull => none

/-- Strict lexicographic `parsed_date > today`. -/
def dateAfter (d today : Nat × Nat × Nat) : Bool :=
  today.1 < d.1 ||
    (today.1 == d.1 && (today.2.1 < d.2.1 ||
      (today.2.1 == d.2.1 && today.2.2 < d.2.2)))

/-- The `_validate_dates` rule: unparsable cells feed one `high` error,
and — only when `allow_future_matches` is off — dates after `today`
feed one `low` warning. -/
def validateDates (today : Nat × Nat × Nat) (cfg : ValidationConfig)
    (df : DataFrame) : List Finding × List Finding :=
  if !df.hasCol "date" then ([], [])
  else
    let vals := df.getCol "date"
    let invalid := (List.range vals.length).filter
      (fun i => (dateCellParse (vals.getD i .vNull)).isNone)
    let future := (List.range vals.length).filter (fun i =>
      match dateCellParse (vals.getD i .vNull) with
      | some d => dateAfter d today && !cfg.allowFutureMatches
      | none => false)
    ((if invalid.isEmpty then []
      else [{ ftype := "date_format_error", severity := "high",
              column := some "date",
              message := "Invalid date formats found",
              rows := invalid.take 10, total := invalid.length }]),
     (if !future.isEmpty && !cfg.allowFutureMatches then
        [{ ftype := "future_date_warning", severity := "low",
           column := some "date",
           message := "Future dates found",
           rows := future.take 10, total := future.length }]
      else []))

def isValidLeague : Value → Bool
  | .vStr s => validLeagues.contains s
  | _ => false

/-- The `_validate_leagues` rule: rows are grouped per offending unique
league value (in first-occurrence order) before being concatenated, as
the source's loop over `df['league'].dropna().unique()` does. -/
def validateLeagues (cfg : ValidationConfig) (df : DataFrame) : List Finding :=
  if !df.hasCol "league" || !cfg.strictLeagueValidation then []
  else
    let vals := df.getCol "league"
    let uniques := (vals.filter (fun v => !v.isNull)).eraseDups
    let bad := uniques.filter (fun v => !isValidLeague v)
    let invalidRows := bad.flatMap (fun lv =>
      (List.range vals.length).filter (fun i => pyEq (vals.getD i .vNull) lv))
    if invalidRows.isEmpty then []
    else [{ ftype := "league_validation_error", severity := "medium",
            column := some "league",
            message := "Invalid league names found",
            colList := validLeagues,
            rows := invalidRows.take 10, total := invalidRows.length }]

/-- Python `str.strip()` with no argument: drop leading and trailing
whitespace (structural recursion on the character list, unlike the
byte-position-based library `trim`). -/
def pyStrip (s : String) : String :=
  ⟨((s.data.dropWhile Char.isWhitespace).reverse.dropWhile
      Char.isWhitespace).reverse⟩

/-- Rows where `df['home_team'] == df['away_team']` holds, the condition
checked (inside the per-column loop) by `_validate_teams`. -/
def sameTeamIndices (df : DataFrame) : List Nat :=
  (List.range df.numRows).filter
    (fun i => pyEq (df.cell "home_team" i) (df.cell "away_team" i))

/-- The dict the same-team block of `_validate_teams` appends. -/
def sameTeamFindingOf (df : DataFrame) : Finding :=
  { ftype := "same_team_error", severity := "high",
    message := "Teams playing against themselves found",
    rows := (sameTeamIndices df).take 10,
    total := (sameTeamIndices df).length }

/-- The same-team finding block of `_validate_teams`; the source runs it
once per iteration of the team-column loop, guarded only by both columns
being present. -/
def sameTeamFindings (df : DataFrame) : List Finding :=
  if df.hasCol "home_team" && df.hasCol "away_team" then
    if (sameTeamIndices df).isEmpty then []
    else [sameTeamFindingOf df]
  else []

/-- One iteration of the `_validate_teams` loop body for `teamCol`.  The
empty-name mask uses the pandas `.str` accessor, which raises
`AttributeError` on a non-object (numeric) column; on an object column,
`.str.strip()` of a non-string element is `NaN`, which compares unequal
to the empty string. -/
def teamColFindings (df : DataFrame) (teamCol : String) :
    Except String (List Finding) :=
  if !df.hasCol teamCol then .ok []
  else
    let vals := df.getCol teamCol
    if !seriesDtypeObject vals then
      .error "AttributeError: Can only use .str accessor with string values"
    else
      let empties := (List.range vals.length).filter (fun i =>
        match vals.getD i .vNull with
        | .vNull => true
        | .vStr s => pyStrip s == ""
        | _ => false)
      let base :=
        if empties.isEmpty then []
        else [{ ftype := "empty_team_error", severity := "high",
                column := some teamCol,
                message := "Empty team names found in " ++ teamCol,
                rows := empties.take 10, total := empties.length }]
      .ok (base ++ sameTeamFindings df)

/-- The `_validate_teams` rule: loop over the two team columns, each
iteration emitting its empty-name finding followed by the (repeated)
same-team finding. -/
def validateTeams (df : DataFrame) : Except String (List Finding) :=
  match teamColFindings df "home_team" with
  | .error e => .error e
  | .ok f1 =>
    match teamColFindings df "away_team" with
    | .error e => .error e
    | .ok f2 => .ok (f1 ++ f2)

/-- Comparing a score column against a number with `<`/`>` raises
`TypeError` in pandas exactly when the column holds non-numeric objects;
with CSV-sourced data that means a string (or date) cell. -/
def scoreColRaises (vals : List Value) : Bool :=
  vals.any (fun v => match v with
    | .vStr _ => true
    | .vDate _ _ _ => true
    | _ => false)

def cellLtZero : Value → Bool
  | .vInt n => n < 0
  | .vFloat q => q < 0
  | _ => false

def cellGtTwenty : Value → Bool
  | .vInt n => 20 < n
  | .vFloat q => 20 < q
  | _ => false

/-- One iteration of the `_validate_scores` per-column loop. -/
def scoreColFindings (df : DataFrame) (scoreCol : String) :
    Except String (List Finding × List Finding) :=
  if !df.hasCol scoreCol then .ok ([], [])
  else
    let vals := df.getCol scoreCol
    if scoreColRaises vals then
      .error "TypeError: comparison of str and int is not supported"
    else
      let negs := (List.range vals.length).filter
        (fun i => cellLtZero (vals.getD i .vNull))
      let highs := (List.range vals.length).filter
        (fun i => cellGtTwenty (vals.getD i .vNull))
      .ok
        ((if negs.isEmpty then []
          else [{ ftype := "negative_score_error", severity := "high",
                  column := some scoreCol,
                  message := "Negative scores found in " ++ scoreCol,
                  rows := negs.take 10, total := negs.length }]),
         (if highs.isEmpty then []
          else [{ ftype := "high_score_warning", severity := "low",
                  column := some scoreCol,
                  message := "Unusually high scores found in " ++ scoreCol,
                  rows := highs.take 10, total := highs.length }]))

/-- Rows where exactly one of the two score cells is missing. -/
def incompleteScoreIndices (df : DataFrame) : List Nat :=
  (List.range df.numRows).filter (fun i =>
    let h := df.cell "home_score" i
    let a := df.cell "away_score" i
    (!h.isNull && a.isNull) || (h.isNull && !a.isNull))

/-- The `_validate_scores` rule: negative-score errors and high-score
warnings per column, then the incomplete-pair warning when both score
columns are present. -/
def validateScores (df : DataFrame) :
    Except String (List Finding × List Finding) :=
  match scoreColFindings df "home_score" with
  | .error e => .error e
  | .ok (e1, w1) =>
    match scoreColFindings df "away_score" with
    | .error e => .error e
    | .ok (e2, w2) =>
      let wInc :=
        if df.hasCol "home_score" && df.hasCol "away_score" then
          let inc := incompleteScoreIndices df
          if inc.isEmpty then []
          else [{ ftype := "incomplete_score_warning", severity := "medium",
                  message := "Incomplete score pairs found",
                  rows := inc.take 10, total := inc.length }]
        else []
      .ok (e1 ++ e2, w1 ++ w2 ++ wInc)

/-- Whether `_validate_match_reports` counts a cell as invalid: null, or
its string form fails `MATCH_REPORT_PATTERN`. -/
def reportCellInvalid (v : Value) : Bool :=
  v.isNull || !matchReportMatch (pyStr v)

/-- Row indices the match-report rule flags. -/
def invalidReportIndices (df : DataFrame) : List Nat :=
  let vals := df.getCol "match_report"
  (List.range vals.length).filter
    (fun i => reportCellInvalid (vals.getD i .vNull))

/-- The `_validate_match_reports` rule: one `medium` finding aggregating
every invalid or null cell (first 10 rows displayed, exact total kept). -/
def validateMatchReports (df : DataFrame) : List Finding :=
  if !df.hasCol "match_report" then []
  else
    let invalid := invalidReportIndices df
    if invalid.isEmpty then []
    else [{ ftype := "match_report_error", severity := "medium",
            column := some "match_report",
            message := "Invalid match report URLs found",
            rows := invalid.take 10, total := invalid.length }]

/-- Equality of two row tuples under the duplicate-detection equivalence
(missing values compare equal). -/
def rowEqNaN (a b : List Value) : Bool :=
  a.length == b.length && (a.zip b).all (fun p => pyEqNaN p.1 p.2)

/-- `df.duplicated(...)` with the default `keep='first'`: the indices of
the rows for which some earlier row carries an equal tuple. -/
def dupIndices (tuples : List (List Value)) : List Nat :=
  (List.range tuples.length).filter (fun i =>
    (List.range i).any (fun k =>
      rowEqNaN (tuples.getD k []) (tuples.getD i [])))

/-- The full row tuple at index `i` (all columns, in column order). -/
def DataFrame.rowTuple (df : DataFrame) (i : Nat) : List Value :=
  df.cols.map (fun p => p.2.getD i .vNull)

/-- The `(date, home_team, away_team)` sub-tuple at index `i`. -/
def DataFrame.matchTuple (df : DataFrame) (i : Nat) : List Value :=
  [df.cell "date" i, df.cell "home_team" i, df.cell "away_team" i]

/-- The `_validate_duplicates` rule: a `medium` finding for exact row
duplicates, then — when the three identifying columns are present — a
`high` finding for duplicate `(date, home_team, away_team)` matches.
Neither row list is truncated (the source omits `[:10]` here). -/
def exactDupRows (df : DataFrame) : List Nat :=
  dupIndices ((List.range df.numRows).map df.rowTuple)

def matchDupRows (df : DataFrame) : List Nat :=
  dupIndices ((List.range df.numRows).map df.matchTuple)

/-- The exact-duplicate dict `_validate_duplicates` appends. -/
def exactDupFindingOf (df : DataFrame) : Finding :=
  { ftype := "duplicate_record_error", severity := "medium",
    message := "Duplicate records found",
    rows := exactDupRows df, total := (exactDupRows df).length }

/-- The duplicate-match dict `_validate_duplicates` appends. -/
def matchDupFindingOf (df : DataFrame) : Finding :=
  { ftype := "duplicate_match_error", severity := "high",
    message := "Duplicate matches found",
    rows := matchDupRows df, total := (matchDupRows df).length }

def validateDuplicates (df : DataFrame) : List Finding :=
  (if (exactDupRows df).isEmpty then [] else [exactDupFindingOf df]) ++
  (if df.hasCol "date" && df.hasCol "home_team" && df.hasCol "away_team" then
    if (matchDupRows df).isEmpty then [] else [matchDupFindingOf df]
   else [])

/-- Python `int(x)` on a float: truncation toward zero, computed as the
T-rounding quotient of the rational's numerator by its denominator. -/
def pyTruncInt (q : ℚ) : Int := q.num.tdiv (q.den : Int)

/-- Columns whose completeness failures escalate to `critical`. -/
def criticalColumns : List String :=
  ["league", "date", "home_team", "away_team"]

def missingCount (df : DataFrame) (c : String) : Nat :=
  (df.getCol c).countP (fun v => v.isNull)

/-- The per-column error branch of `_validate_completeness`.  The
`missing_percentage` stored in the dict is display-only (and is numpy's
`NaN`, not an exception, when `total_records` is 0); no branch reads it,
so it is elided here. -/
def completenessErr (df : DataFrame) (maxMissing : Int) (c : String) :
    Option Finding :=
  let missing := missingCount df c
  if maxMissing < (missing : Int) then
    some { ftype := "completeness_error",
           severity := if criticalColumns.contains c then "critical" else "high",
           column := some c,
           message := "Too many missing values in " ++ c,
           total := missing }
  else none

/-- The per-column warning branch of `_validate_completeness`. -/
def completenessWarn (df : DataFrame) (maxMissing : Int) (c : String) :
    Option Finding :=
  let missing := missingCount df c
  if maxMissing < (missing : Int) then none
  else if 0 < missing then
    some { ftype := "completeness_warning", severity := "low",
           column := some c,
           message := "Some missing values in " ++ c,
           total := missing }
  else none

/-- The `_validate_completeness` rule: one pass over all dataframe
columns (schema or not), escalating to an error when the missing count
exceeds `int(total_records * max_missing_percentage / 100)`. -/
def validateCompleteness (cfg : ValidationConfig) (df : DataFrame) :
    List Finding × List Finding :=
  let maxMissing := pyTruncInt ((df.numRows : ℚ) * cfg.maxMissingPercentage / 100)
  (df.colNames.filterMap (completenessErr df maxMissing),
   df.colNames.filterMap (completenessWarn df maxMissing))

/-- Severity deduction for one error in `_calculate_quality_score`. -/
def errDeduct (f : Finding) : ℚ :=
  if f.severity == "critical" then 20
  else if f.severity == "high" then 10
  else if f.severity == "medium" then 5
  else 2

/-- Severity deduction for one warning in `_calculate_quality_score`. -/
def warnDeduct (f : Finding) : ℚ :=
  if f.severity == "medium" then 2 else 1

/-- `_calculate_quality_score`: 0 outright for an empty dataframe, else
100 minus one deduction per finding, floored at 0. -/
def calculateQualityScore (df : DataFrame)
    (errors warnings : List Finding) : ℚ :=
  if df.numRows == 0 then 0
  else
    let s := warnings.foldl (fun s f => s - warnDeduct f)
      (errors.foldl (fun s f => s - errDeduct f) 100)
    max 0 s

/-- `_create_summary`, with locale formatting (thousands separators,
one-decimal score display, emoji) abstracted to plain renderings; no
claim and no branch of the validator reads this text back. -/
def createSummary (totalRecords : Nat) (errors warnings : List Finding)
    (qualityScore : ℚ) (sourceName : String) : String :=
  "=== DATA VALIDATION SUMMARY ===\nSource: " ++ sourceName ++
  "\nStatus: " ++ (if errors.isEmpty then "PASSED" else "FAILED") ++
  "\nTotal Records: " ++ toString totalRecords ++
  "\nQuality Score: " ++ toString qualityScore ++ "/100\nErrors: " ++
  toString errors.length ++ "\nWarnings: " ++ toString warnings.length

/-- The combined errors list assembled by `validate_dataframe`, in the
order its `errors.extend(...)` calls run, with the raising checkers'
findings passed in. -/
def assembledErrors (today : Nat × Nat × Nat) (cfg : ValidationConfig)
    (df : DataFrame) (teamErrors scoreErrors : List Finding) : List Finding :=
  validateSchema df ++ validateDataTypes df ++
  (validateDates today cfg df).1 ++ validateLeagues cfg df ++
  teamErrors ++ scoreErrors ++ validateMatchReports df ++
  (if cfg.enableDuplicateCheck then validateDuplicates df else []) ++
  (validateCompleteness cfg df).1

/-- The combined warnings list assembled by `validate_dataframe`. -/
def assembledWarnings (today : Nat × Nat × Nat) (cfg : ValidationConfig)
    (df : DataFrame) (scoreWarnings : List Finding) : List Finding :=
  (validateDates today cfg df).2 ++ scoreWarnings ++
  (validateCompleteness cfg df).2

/-- The tail of `validate_dataframe` after every checker has run: score,
verdict, summary, result record. -/
def assembleResult (today : Nat × Nat × Nat) (cfg : ValidationConfig)
    (df : DataFrame) (sourceName : String)
    (teamErrors scoreErrors scoreWarnings : List Finding) : ValidationResult :=
  let errors := assembledErrors today cfg df teamErrors scoreErrors
  let warnings := assembledWarnings today cfg df scoreWarnings
  let qualityScore := calculateQualityScore df errors warnings
  let isValid := errors.isEmpty && decide (cfg.minQualityScore ≤ qualityScore)
  ⟨isValid, df.numRows, errors, warnings, qualityScore,
   createSummary df.numRows errors warnings qualityScore sourceName⟩

/-- `DataValidator.validate_dataframe`: run every rule checker, collect
findings, score, and decide validity.  The two checkers whose pandas
expressions can raise (`_validate_teams` via `.str`, `_validate_scores`
via `<`) surface as the `Except` error case, which aborts the run just
as the uncaught Python exception does. -/
def validateDataframe (today : Nat × Nat × Nat) (cfg : ValidationConfig)
    (df : DataFrame) (sourceName : String) :
    Except String ValidationResult :=
  match validateTeams df with
  | .error e => .error e
  | .ok teamErrors =>
    match validateScores df with
    | .error e => .error e
    | .ok (scoreErrors, scoreWarnings) =>
      .ok (assembleResult today cfg df sourceName teamErrors scoreErrors
        scoreWarnings)

/-- Whether the run produced a `ValidationResult` (no uncaught pandas
exception). -/
def vOk (e : Except String ValidationResult) : Bool :=
  match e with
  | .ok _ => true
  | .error _ => false

/-- The produced `ValidationResult` (junk default in the raising case;
every theorem using it restricts to `vOk`). -/
def vResult (e : Except String ValidationResult) : ValidationResult :=
  match e with
  | .ok r => r
  | .error _ => ⟨false, 0, [], [], 0, ""⟩

/-- The findings of `_validate_teams` when it does not raise. -/
def teamsOf (df : DataFrame) : List Finding :=
  match validateTeams df with
  | .ok fs => fs
  | .error _ => []

/-- The total severity-weighted deduction of a findings pair — the
closed-form counterpart of the scorer's two subtraction loops. -/
def totalDeduction (errors warnings : List Finding) : ℚ :=
  (errors.map errDeduct).sum + (warnings.map warnDeduct).sum

/-- A fixed validation date for concrete runs (no fixture below is later,
and the default config allows future matches anyway). -/
def today0 : Nat × Nat × Nat := (2026, 10, 12)

/-- A one-row dataframe that every rule accepts. -/
def perfectDf : DataFrame := ⟨[
  ("league", [.vStr "ENG-Premier League"]),
  ("season", [.vStr "2324"]),
  ("date", [.vStr "2023-08-12"]),
  ("home_team", [.vStr "Arsenal"]),
  ("away_team", [.vStr "Chelsea"]),
  ("match_report", [.vStr "/en/matches/abcd1234/Arsenal-Chelsea"]),
  ("home_score", [.vFloat 2]),
  ("away_score", [.vFloat 1]),
  ("day_of_week", [.vStr "Sat"])]⟩

/-- `perfectDf` with one extra column the schema does not know. -/
def extraColDf : DataFrame := ⟨perfectDf.cols ++ [("extra_col", [.vStr "x"])]⟩

/-- A zero-row dataframe with all nine expected columns. -/
def emptyDf : DataFrame := ⟨expectedSchemaKeys.map (fun c => (c, []))⟩

/-- `perfectDf` with a numeric (int64-dtype) `home_team` column, as
`pd.read_csv` produces when every cell of the column is an integer. -/
def numericTeamDf : DataFrame :=
  ⟨perfectDf.cols.map (fun p =>
    if p.1 == "home_team" then ("home_team", [Value.vInt 7]) else p)⟩

/-- Two rows with identical `(date, home_team, away_team)` but different
`match_report` values. -/
def dupDf : DataFrame := ⟨[
  ("date", [.vStr "2025-08-16", .vStr "2025-08-16"]),
  ("home_team", [.vStr "Arsenal", .vStr "Arsenal"]),
  ("away_team", [.vStr "Chelsea", .vStr "Chelsea"]),
  ("match_report", [.vStr "/en/matches/abcd1234/a", .vStr "/en/matches/abcd9999/b"])]⟩

/-- Eleven rows on which the home team equals the away team. -/
def elevenDf : DataFrame := ⟨[
  ("home_team", List.replicate 11 (Value.vStr "Arsenal")),
  ("away_team", List.replicate 11 (Value.vStr "Arsenal"))]⟩

/-- Ten rows with a single missing league value: below the default 5%
threshold only if the tolerance were fractional. -/
def df10 : DataFrame :=
  ⟨[("league", List.replicate 9 (Value.vStr "x") ++ [Value.vNull])]⟩

/-- A match-report column with one conforming cell, one null, one
malformed string. -/
def reportDf : DataFrame :=
  ⟨[("match_report", [.vStr "/en/matches/abcd1234/x", .vNull, .vStr "bad"])]⟩

/-- The message of the uncaught exception, when the run raised one. -/
def vErrMsg (e : Except String ValidationResult) : String :=
  match e with
  | .ok _ => ""
  | .error s => s

/-- A bare error finding of `critical` severity (only the severity field
matters to the scorer). -/
def criticalStub : Finding :=
  { ftype := "completeness_error", severity := "critical", message := "" }

/-- A bare error finding of `high` severity. -/
def highStub : Finding :=
  { ftype := "data_type_error", severity := "high", message := "" }

/-- C1: on a dataframe whose nine schema columns are all clean and which
carries one extra column, the schema-shape check's unexpected-columns
finding (type `schema_warning`, severity `warning`, listing the extra
column) is the sole entry of the result's errors list — not of its
warnings list — and therefore forces `is_valid` to false even though the
quality score (98) still clears the default 95 threshold.  This
contradicts the claim that the finding is informational and not counted
among the errors. -/
theorem C1_schema_warning_counted_as_error :
    vOk (validateDataframe today0 defaultConfig extraColDf "src") = true ∧
    (vResult (validateDataframe today0 defaultConfig extraColDf "src")).errors.map
        (fun f => (f.ftype, f.severity, f.colList)) =
      [("schema_warning", "warning", ["extra_col"])] ∧
    (vResult (validateDataframe today0 defaultConfig extraColDf "src")).warnings = [] ∧
    (vResult (validateDataframe today0 defaultConfig extraColDf "src")).qualityScore = 98 ∧
    (vResult (validateDataframe today0 defaultConfig extraColDf "src")).isValid = false := by
  with_unfolding_all exact of_decide_eq_true rfl

/-- C2: a well-formed one-row dataframe whose `home_team` column is
numeric (as `pd.read_csv` yields for an all-integer column) makes
`validate_dataframe` raise `AttributeError` out of the `.str` accessor
in `_validate_teams` instead of returning a `ValidationResult`, refuting
the claim that every successfully parsed dataset yields a result with
all problems captured as findings. -/
theorem C2_numeric_team_column_raises :
    numericTeamDf.WF ∧
    vOk (validateDataframe today0 defaultConfig numericTeamDf "src") = false ∧
    vErrMsg (validateDataframe today0 defaultConfig numericTeamDf "src") =
      "AttributeError: Can only use .str accessor with string values" := by
  with_unfolding_all exact of_decide_eq_true rfl

/-- C3 counterexample: the zero-row dataframe with all nine expected
columns validates with zero errors and zero warnings, yet its quality
score is 0.0, not 100.0 — `_calculate_quality_score` returns 0.0
whenever `total_records == 0`, so the scorer is not a function of the
findings alone. -/
theorem C3_counterexample_zero_rows_score_zero :
    vOk (validateDataframe today0 defaultConfig emptyDf "src") = true ∧
    (vResult (validateDataframe today0 defaultConfig emptyDf "src")).errors = [] ∧
    (vResult (validateDataframe today0 defaultConfig emptyDf "src")).warnings = [] ∧
    (vResult (validateDataframe today0 defaultConfig emptyDf "src")).qualityScore = 0 ∧
    ¬ (vResult (validateDataframe today0 defaultConfig emptyDf "src")).qualityScore = 100 := by
  with_unfolding_all exact of_decide_eq_true rfl

/-- C4 counterexample: for the zero-row dataframe the scorer returns 0
on empty findings lists, while the claimed clamp formula yields 100, so
the score does not equal the clamped deduction formula for every
dataset. -/
theorem C4_counterexample_zero_rows_formula_fails :
    calculateQualityScore emptyDf [] [] = 0 ∧
    ¬ calculateQualityScore emptyDf [] [] =
        max 0 (min 100 (100 - totalDeduction [] [])) := by
  constructor
  · with_unfolding_all exact of_decide_eq_true rfl
  · intro h
    rw [show calculateQualityScore emptyDf [] [] = 0 from by
          with_unfolding_all exact of_decide_eq_true rfl] at h
    rw [show totalDeduction [] [] = 0 from by
          with_unfolding_all exact of_decide_eq_true rfl] at h
    norm_num at h

/-- C5 counterexample: on two rows with identical
`(date, home_team, away_team)` and different `match_report` values,
`_validate_duplicates` emits one `high` duplicate-match finding whose
row list is `[1]` — only the second (later) row — so no finding lists
both row indices as the claim asserts. -/
theorem C5_counterexample_only_second_row_listed :
    (validateDuplicates dupDf).map (fun f => (f.ftype, f.severity, f.rows, f.total)) =
      [("duplicate_match_error", "high", [1], 1)] ∧
    ¬ ∃ f ∈ validateDuplicates dupDf, 0 ∈ f.rows ∧ 1 ∈ f.rows := by
  with_unfolding_all exact of_decide_eq_true rfl

/-- C6 counterexample: on eleven rows whose home team equals the away
team, `_validate_teams` emits the same-team finding twice (the block
sits inside the per-column loop), and each copy's row list holds only
the first ten indices, omitting row 10 — so there is neither exactly one
such finding nor one listing every offending row. -/
theorem C6_counterexample_two_findings_truncated_rows :
    (teamsOf elevenDf).map (fun f => (f.ftype, f.severity, f.rows, f.total)) =
      [("same_team_error", "high", [0, 1, 2, 3, 4, 5, 6, 7, 8, 9], 11),
       ("same_team_error", "high", [0, 1, 2, 3, 4, 5, 6, 7, 8, 9], 11)] ∧
    ¬ ((teamsOf elevenDf).filter (fun f => f.ftype == "same_team_error")).length = 1 ∧
    ∀ f ∈ teamsOf elevenDf, ¬ 10 ∈ f.rows := by
  with_unfolding_all exact of_decide_eq_true rfl

/-- Each scorer loop is a running subtraction: folding deductions equals subtracting their sum. -/
theorem foldl_sub_eq (f : Finding → ℚ) (l : List Finding) (a : ℚ) :
    l.foldl (fun s x => s - f x) a = a - (l.map f).sum := by
  induction l generalizing a with
  | nil => simp
  | cons x xs ih => simp [ih, sub_sub]

/-- Every error deduction is nonnegative. -/
theorem errDeduct_nonneg (f : Finding) : 0 ≤ errDeduct f := by
  unfold errDeduct; split_ifs <;> norm_num

/-- Every warning deduction is nonnegative. -/
theorem warnDeduct_nonneg (f : Finding) : 0 ≤ warnDeduct f := by
  unfold warnDeduct; split_ifs <;> norm_num

/-- The combined deduction of any findings pair is nonnegative. -/
theorem totalDeduction_nonneg (e w : List Finding) : 0 ≤ totalDeduction e w := by
  unfold totalDeduction
  have h1 : 0 ≤ (e.map errDeduct).sum := by
    apply List.sum_nonneg
    intro x hx
    obtain ⟨f, _, rfl⟩ := List.mem_map.mp hx
    exact errDeduct_nonneg f
  have h2 : 0 ≤ (w.map warnDeduct).sum := by
    apply List.sum_nonneg
    intro x hx
    obtain ⟨f, _, rfl⟩ := List.mem_map.mp hx
    exact warnDeduct_nonneg f
  linarith

/-- On a nonempty dataframe the scorer computes exactly the deduction
sum clamped to the interval from 0 to 100 (the upper clamp being
redundant because deductions are nonnegative). -/
theorem calculateQualityScore_eq (df : DataFrame) (e w : List Finding)
    (hn : 0 < df.numRows) :
    calculateQualityScore df e w = max 0 (min 100 (100 - totalDeduction e w)) := by
  unfold calculateQualityScore
  have h0 : (df.numRows == 0) = false := by
    simp [Nat.pos_iff_ne_zero.mp hn]
  rw [h0]
  simp only [Bool.false_eq_true, if_false]
  rw [foldl_sub_eq, foldl_sub_eq]
  have : min 100 (100 - totalDeduction e w) = 100 - totalDeduction e w := by
    have := totalDeduction_nonneg e w
    apply min_eq_right; linarith
  rw [this]
  unfold totalDeduction
  ring_nf

/-- C4 (amended): for every dataset with at least one row, the quality
score equals 100 minus the sum of per-finding deductions clamped to the
interval from 0 to 100 after summing; the score is invariant under
permutation of the findings, six critical errors yield exactly 0, and
appending one high-severity error lowers the pre-clamp value by exactly
10.  (The original claim also covered the zero-row dataset, where the
scorer instead returns 0 outright.) -/
theorem C4_amended_score_is_clamped_deduction_sum (df : DataFrame)
    (errors warnings e2 w2 : List Finding) (hn : 0 < df.numRows)
    (hpe : errors.Perm e2) (hpw : warnings.Perm w2) :
    calculateQualityScore df errors warnings =
      max 0 (min 100 (100 - totalDeduction errors warnings)) ∧
    calculateQualityScore df errors warnings = calculateQualityScore df e2 w2 ∧
    calculateQualityScore df (List.replicate 6 criticalStub) [] = 0 ∧
    100 - totalDeduction (errors ++ [highStub]) warnings =
      100 - totalDeduction errors warnings - 10 := by
  refine ⟨calculateQualityScore_eq df errors warnings hn, ?_, ?_, ?_⟩
  · rw [calculateQualityScore_eq df errors warnings hn,
        calculateQualityScore_eq df e2 w2 hn]
    have : totalDeduction errors warnings = totalDeduction e2 w2 := by
      unfold totalDeduction
      rw [(hpe.map errDeduct).sum_eq, (hpw.map warnDeduct).sum_eq]
    rw [this]
  · rw [calculateQualityScore_eq df _ _ hn]
    with_unfolding_all exact of_decide_eq_true rfl
  · have hd : errDeduct highStub = 10 := by
      with_unfolding_all exact of_decide_eq_true rfl
    unfold totalDeduction
    rw [List.map_append]
    simp [hd]
    ring

/-- C4 witness: the amended scorer law instantiated on the one-row
clean dataframe with a concrete permuted findings pair. -/
theorem C4_witness_concrete :
    calculateQualityScore perfectDf [criticalStub, highStub] [] =
      max 0 (min 100 (100 - totalDeduction [criticalStub, highStub] [])) ∧
    calculateQualityScore perfectDf [criticalStub, highStub] [] =
      calculateQualityScore perfectDf [highStub, criticalStub] [] ∧
    calculateQualityScore perfectDf (List.replicate 6 criticalStub) [] = 0 ∧
    100 - totalDeduction ([criticalStub, highStub] ++ [highStub]) [] =
      100 - totalDeduction [criticalStub, highStub] [] - 10 :=
  C4_amended_score_is_clamped_deduction_sum perfectDf [criticalStub, highStub]
    [] [highStub, criticalStub] [] (by decide) (by decide) (by decide)

/-- When neither raising checker raises, the orchestrator returns the
assembled result. -/
theorem validateDataframe_ok (today : Nat × Nat × Nat) (cfg : ValidationConfig)
    (df : DataFrame) (name : String) (te se sw : List Finding)
    (ht : validateTeams df = .ok te) (hs : validateScores df = .ok (se, sw)) :
    validateDataframe today cfg df name =
      .ok (assembleResult today cfg df name te se sw) := by
  unfold validateDataframe
  rw [ht, hs]

/-- C3 (amended): for every dataset with at least one row whose
validation returns a result with zero errors and zero warnings, the
quality score is exactly 100.  (The original claim also covered the
zero-row dataset, where the scorer short-circuits to 0.0 before looking
at the findings, so it is not a pure function of the findings alone.) -/
theorem C3_amended_clean_nonempty_scores_100 (today : Nat × Nat × Nat)
    (cfg : ValidationConfig) (df : DataFrame) (name : String)
    (hn : 0 < df.numRows)
    (hok : vOk (validateDataframe today cfg df name) = true)
    (he : (vResult (validateDataframe today cfg df name)).errors = [])
    (hw : (vResult (validateDataframe today cfg df name)).warnings = []) :
    (vResult (validateDataframe today cfg df name)).qualityScore = 100 := by
  cases ht : validateTeams df with
  | error e =>
    unfold validateDataframe at hok
    rw [ht] at hok
    simp [vOk] at hok
  | ok te =>
    cases hs : validateScores df with
    | error e =>
      unfold validateDataframe at hok
      rw [ht, hs] at hok
      simp [vOk] at hok
    | ok p =>
      obtain ⟨se, sw⟩ := p
      have hEq := validateDataframe_ok today cfg df name te se sw ht hs
      rw [hEq] at he hw ⊢
      simp only [vResult] at he hw ⊢
      unfold assembleResult at he hw ⊢
      simp only at he hw ⊢
      rw [he, hw, calculateQualityScore_eq df [] [] hn]
      have : totalDeduction [] [] = 0 := by
        with_unfolding_all exact of_decide_eq_true rfl
      rw [this]
      norm_num

/-- C3 witness: the amended law instantiated on the one-row clean
dataframe, whose validation run is evaluated concretely. -/
theorem C3_witness_concrete :
    (vResult (validateDataframe today0 defaultConfig perfectDf "t")).qualityScore = 100 :=
  C3_amended_clean_nonempty_scores_100 today0 defaultConfig perfectDf "t"
    (by decide)
    (by with_unfolding_all exact of_decide_eq_true rfl)
    (by with_unfolding_all exact of_decide_eq_true rfl)
    (by with_unfolding_all exact of_decide_eq_true rfl)

/-- C7: for every dataset, config and validation date on which the run
returns a result, the verdict is true exactly when the errors list is
empty and the quality score reaches the minimum; warnings enter only
through the score. -/
theorem C7_is_valid_iff (today : Nat × Nat × Nat) (cfg : ValidationConfig)
    (df : DataFrame) (name : String)
    (hok : vOk (validateDataframe today cfg df name) = true) :
    ((vResult (validateDataframe today cfg df name)).isValid = true ↔
      ((vResult (validateDataframe today cfg df name)).errors = [] ∧
        cfg.minQualityScore ≤
          (vResult (validateDataframe today cfg df name)).qualityScore)) := by
  cases ht : validateTeams df with
  | error e =>
    unfold validateDataframe at hok
    rw [ht] at hok
    simp [vOk] at hok
  | ok te =>
    cases hs : validateScores df with
    | error e =>
      unfold validateDataframe at hok
      rw [ht, hs] at hok
      simp [vOk] at hok
    | ok p =>
      obtain ⟨se, sw⟩ := p
      rw [validateDataframe_ok today cfg df name te se sw ht hs]
      simp only [vResult]
      unfold assembleResult
      simp only
      rw [Bool.and_eq_true, List.isEmpty_iff, decide_eq_true_iff]

/-- C7 witness: the verdict equivalence instantiated on the one-row
clean dataframe under the default config. -/
theorem C7_witness_concrete :
    ((vResult (validateDataframe today0 defaultConfig perfectDf "t")).isValid = true ↔
      ((vResult (validateDataframe today0 defaultConfig perfectDf "t")).errors = [] ∧
        defaultConfig.minQualityScore ≤
          (vResult (validateDataframe today0 defaultConfig perfectDf "t")).qualityScore)) :=
  C7_is_valid_iff today0 defaultConfig perfectDf "t"
    (by with_unfolding_all exact of_decide_eq_true rfl)

/-- In a well-formed zero-row dataframe every column lookup is empty. -/
theorem getCol_eq_nil_of_zero (df : DataFrame) (hwf : df.WF)
    (h0 : df.numRows = 0) (c : String) : df.getCol c = [] := by
  unfold DataFrame.getCol
  cases hf : df.cols.find? (fun p => p.1 == c) with
  | none => rfl
  | some p =>
    have hm := List.mem_of_find?_eq_some hf
    have hl := hwf p hm
    rw [h0] at hl
    simpa using List.length_eq_zero.mp hl

/-- The team rule cannot raise on a well-formed zero-row dataframe and
finds nothing. -/
theorem validateTeams_ok_of_zero (df : DataFrame) (hwf : df.WF)
    (h0 : df.numRows = 0) : validateTeams df = .ok [] := by
  have hg := getCol_eq_nil_of_zero df hwf h0
  have hcf : ∀ c, teamColFindings df c = .ok [] := by
    intro c
    unfold teamColFindings
    rw [hg c]
    simp [seriesDtypeObject, sameTeamFindings, sameTeamIndices, h0]
  unfold validateTeams
  rw [hcf "home_team", hcf "away_team"]
  rfl

/-- The score rule cannot raise on a well-formed zero-row dataframe and
finds nothing. -/
theorem validateScores_ok_of_zero (df : DataFrame) (hwf : df.WF)
    (h0 : df.numRows = 0) : validateScores df = .ok ([], []) := by
  have hg := getCol_eq_nil_of_zero df hwf h0
  have hcf : ∀ c, scoreColFindings df c = .ok ([], []) := by
    intro c
    unfold scoreColFindings
    rw [hg c]
    simp [scoreColRaises]
  unfold validateScores
  rw [hcf "home_score", hcf "away_score"]
  simp [incompleteScoreIndices, h0]

/-- The completeness rule emits no findings at all on a well-formed
zero-row dataframe: the missing counts are zero, and the stored
percentage (a numpy NaN from the 0/0) is never branched on. -/
theorem validateCompleteness_of_zero (cfg : ValidationConfig) (df : DataFrame)
    (hwf : df.WF) (h0 : df.numRows = 0) :
    validateCompleteness cfg df = ([], []) := by
  have hmc : ∀ c, missingCount df c = 0 := by
    intro c
    unfold missingCount
    rw [getCol_eq_nil_of_zero df hwf h0 c]
    rfl
  have hmm : pyTruncInt ((df.numRows : ℚ) * cfg.maxMissingPercentage / 100) = 0 := by
    rw [h0]
    norm_num [pyTruncInt]
  unfold validateCompleteness
  rw [hmm]
  refine Prod.ext ?_ ?_ <;> simp only
  · apply List.filterMap_eq_nil_iff.mpr
    intro c _
    unfold completenessErr
    rw [hmc c]
    norm_num
  · apply List.filterMap_eq_nil_iff.mpr
    intro c _
    unfold completenessWarn
    rw [hmc c]
    norm_num

/-- C8: validating any well-formed zero-row dataset raises nothing (in
particular no division error: the 0/0 completeness percentage is a
display-only NaN), yields a result with total_records equal to 0, and
the completeness rule produces no findings, neither errors nor
warnings, for any column. -/
theorem C8_zero_rows_safe (today : Nat × Nat × Nat) (cfg : ValidationConfig)
    (df : DataFrame) (name : String) (hwf : df.WF) (h0 : df.numRows = 0) :
    vOk (validateDataframe today cfg df name) = true ∧
    (vResult (validateDataframe today cfg df name)).totalRecords = 0 ∧
    validateCompleteness cfg df = ([], []) := by
  have hEq := validateDataframe_ok today cfg df name [] [] []
    (validateTeams_ok_of_zero df hwf h0) (validateScores_ok_of_zero df hwf h0)
  refine ⟨?_, ?_, validateCompleteness_of_zero cfg df hwf h0⟩
  · rw [hEq]; rfl
  · rw [hEq]
    simp only [vResult]
    unfold assembleResult
    exact h0

/-- C8 witness: the zero-row law instantiated on the empty nine-column
dataframe. -/
theorem C8_witness_concrete :
    vOk (validateDataframe today0 defaultConfig emptyDf "e") = true ∧
    (vResult (validateDataframe today0 defaultConfig emptyDf "e")).totalRecords = 0 ∧
    validateCompleteness defaultConfig emptyDf = ([], []) :=
  C8_zero_rows_safe today0 defaultConfig emptyDf "e" (by decide) (by rfl)

/-- Membership in the flagged-row list of the match-report rule. -/
theorem mem_invalidReportIndices (df : DataFrame) (i : Nat) :
    i ∈ invalidReportIndices df ↔
      i < (df.getCol "match_report").length ∧
      reportCellInvalid ((df.getCol "match_report").getD i .vNull) = true := by
  unfold invalidReportIndices
  simp [List.mem_filter, List.mem_range]

/-- C9: on every dataset with a match_report column, the rule emits
exactly one finding when any cell is flagged (none otherwise); that
finding is medium severity, carries the first ten flagged row indices
and the untruncated total; and a row is flagged exactly when its cell
is not a non-null string matching the report-identifier shape — in
particular every null cell is flagged. -/
theorem C9_match_report_rule (df : DataFrame)
    (hc : df.hasCol "match_report" = true) :
    ((validateMatchReports df).length =
      if (invalidReportIndices df).isEmpty then 0 else 1) ∧
    (∀ f ∈ validateMatchReports df,
      f.ftype = "match_report_error" ∧ f.severity = "medium" ∧
      f.rows = (invalidReportIndices df).take 10 ∧
      f.total = (invalidReportIndices df).length) ∧
    (∀ i, i ∈ invalidReportIndices df ↔
      i < (df.getCol "match_report").length ∧
      (((df.getCol "match_report").getD i .vNull).isNull = true ∨
        matchReportMatch (pyStr ((df.getCol "match_report").getD i .vNull)) = false)) := by
  refine ⟨?_, ?_, ?_⟩
  · unfold validateMatchReports
    rw [hc]
    simp only [Bool.not_true, Bool.false_eq_true, if_false]
    split <;> simp
  · unfold validateMatchReports
    rw [hc]
    simp only [Bool.not_true, Bool.false_eq_true, if_false]
    split
    · intro f hf; simp at hf
    · intro f hf
      simp only [List.mem_singleton] at hf
      subst hf
      exact ⟨rfl, rfl, rfl, rfl⟩
  · intro i
    rw [mem_invalidReportIndices]
    unfold reportCellInvalid
    constructor
    · rintro ⟨hlen, hinv⟩
      refine ⟨hlen, ?_⟩
      rcases Bool.or_eq_true .. |>.mp hinv with h | h
      · exact Or.inl h
      · exact Or.inr (by simpa using h)
    · rintro ⟨hlen, h | h⟩
      · exact ⟨hlen, Bool.or_eq_true .. |>.mpr (Or.inl h)⟩
      · refine ⟨hlen, Bool.or_eq_true .. |>.mpr (Or.inr ?_)⟩
        exact Bool.not_eq_true' .. |>.mpr h

/-- C9 witness: the match-report rule instantiated on a three-row
column holding one conforming cell, one null and one malformed
string. -/
theorem C9_witness_concrete :
    ((validateMatchReports reportDf).length =
      if (invalidReportIndices reportDf).isEmpty then 0 else 1) ∧
    (∀ f ∈ validateMatchReports reportDf,
      f.ftype = "match_report_error" ∧ f.severity = "medium" ∧
      f.rows = (invalidReportIndices reportDf).take 10 ∧
      f.total = (invalidReportIndices reportDf).length) ∧
    (∀ i, i ∈ invalidReportIndices reportDf ↔
      i < (reportDf.getCol "match_report").length ∧
      (((reportDf.getCol "match_report").getD i .vNull).isNull = true ∨
        matchReportMatch (pyStr ((reportDf.getCol "match_report").getD i .vNull)) = false)) :=
  C9_match_report_rule reportDf (by decide)

/-- Truncation toward zero of a rational below one is nonpositive. -/
theorem pyTruncInt_nonpos_of_lt_one (q : ℚ) (h : q < 1) : pyTruncInt q ≤ 0 := by
  unfold pyTruncInt
  by_cases hq : 0 ≤ q.num
  · rw [Int.tdiv_eq_zero_of_lt hq (Rat.lt_one_iff_num_lt_denom.mp h)]
  · push_neg at hq
    have h1 : q.num.tdiv (q.den : Int) = -((-q.num).tdiv (q.den : Int)) := by
      rw [← Int.neg_tdiv, neg_neg]
    rw [h1, neg_nonpos]
    exact Int.tdiv_nonneg (by omega) (by positivity)

/-- Characterization of the per-column completeness error branch. -/
theorem completenessErr_eq_some (df : DataFrame) (maxM : Int) (c : String)
    (f : Finding) :
    completenessErr df maxM c = some f ↔
      (maxM < (missingCount df c : Int) ∧
        f = { ftype := "completeness_error",
              severity := if criticalColumns.contains c then "critical" else "high",
              column := some c,
              message := "Too many missing values in " ++ c,
              total := missingCount df c }) := by
  unfold completenessErr
  by_cases hcond : maxM < (missingCount df c : Int)
  · simp only [if_pos hcond, Option.some.injEq]
    constructor
    · intro h; exact ⟨hcond, h.symm⟩
    · intro h; exact h.2.symm
  · simp [hcond]

/-- The per-column completeness warning branch only fires when the
error branch did not. -/
theorem completenessWarn_eq_some (df : DataFrame) (maxM : Int) (c : String)
    (f : Finding) :
    completenessWarn df maxM c = some f →
      f.column = some c ∧ ¬ maxM < (missingCount df c : Int) := by
  unfold completenessWarn
  by_cases hcond : maxM < (missingCount df c : Int)
  · simp [hcond]
  · simp only [if_neg hcond]
    by_cases hpos : 0 < missingCount df c
    · simp only [if_pos hpos]
      intro h
      rw [← Option.some.inj h]
      exact ⟨rfl, hcond⟩
    · simp [hpos]

/-- C10: for datasets with rows, a column receives a completeness error
exactly when its missing count strictly exceeds the truncated tolerance
int(total_records * max_missing_percentage / 100), with severity
critical for the four core identifying columns and high otherwise;
consequently, whenever total_records * max_missing_percentage < 100
(e.g. ten rows at the default 5.0), a single missing value already
produces the error and no low completeness warning for that column. -/
theorem C10_completeness_rule (cfg : ValidationConfig) (df : DataFrame)
    (c : String) (hn : 0 < df.numRows) (hc : c ∈ df.colNames) :
    ((∃ f ∈ (validateCompleteness cfg df).1, f.column = some c) ↔
      pyTruncInt ((df.numRows : ℚ) * cfg.maxMissingPercentage / 100) <
        (missingCount df c : Int)) ∧
    (∀ f ∈ (validateCompleteness cfg df).1, f.column = some c →
      f.severity = if criticalColumns.contains c then "critical" else "high") ∧
    ((df.numRows : ℚ) * cfg.maxMissingPercentage < 100 → 0 < missingCount df c →
      (∃ f ∈ (validateCompleteness cfg df).1, f.column = some c) ∧
      ∀ f ∈ (validateCompleteness cfg df).2, ¬ f.column = some c) := by
  have hfst : (validateCompleteness cfg df).1 =
      df.colNames.filterMap (completenessErr df
        (pyTruncInt ((df.numRows : ℚ) * cfg.maxMissingPercentage / 100))) := rfl
  have hsnd : (validateCompleteness cfg df).2 =
      df.colNames.filterMap (completenessWarn df
        (pyTruncInt ((df.numRows : ℚ) * cfg.maxMissingPercentage / 100))) := rfl
  have hex : (∃ f ∈ (validateCompleteness cfg df).1, f.column = some c) ↔
      pyTruncInt ((df.numRows : ℚ) * cfg.maxMissingPercentage / 100) <
        (missingCount df c : Int) := by
    rw [hfst]
    constructor
    · rintro ⟨f, hf, hcol⟩
      obtain ⟨c', _, hsome⟩ := List.mem_filterMap.mp hf
      obtain ⟨hcond, hfeq⟩ := (completenessErr_eq_some df _ c' f).mp hsome
      have : c' = c := by
        rw [hfeq] at hcol
        exact Option.some.inj hcol
      rwa [this] at hcond
    · intro hcond
      refine ⟨_, List.mem_filterMap.mpr ⟨c, hc,
        (completenessErr_eq_some df _ c _).mpr ⟨hcond, rfl⟩⟩, rfl⟩
  refine ⟨hex, ?_, ?_⟩
  · intro f hf hcol
    rw [hfst] at hf
    obtain ⟨c', _, hsome⟩ := List.mem_filterMap.mp hf
    obtain ⟨_, hfeq⟩ := (completenessErr_eq_some df _ c' f).mp hsome
    have hcc : c' = c := by
      rw [hfeq] at hcol
      exact Option.some.inj hcol
    rw [hfeq, hcc]
  · intro hlt hmiss
    have hq : (df.numRows : ℚ) * cfg.maxMissingPercentage / 100 < 1 := by
      rw [div_lt_one (by norm_num : (0:ℚ) < 100)]
      exact hlt
    have hmle := pyTruncInt_nonpos_of_lt_one _ hq
    have hcond : pyTruncInt ((df.numRows : ℚ) * cfg.maxMissingPercentage / 100) <
        (missingCount df c : Int) := by omega
    refine ⟨hex.mpr hcond, ?_⟩
    intro f hf hcol
    rw [hsnd] at hf
    obtain ⟨c', _, hsome⟩ := List.mem_filterMap.mp hf
    obtain ⟨hfcol, hnlt⟩ := completenessWarn_eq_some df _ c' f hsome
    have hcc : c' = c := by
      rw [hfcol] at hcol
      exact Option.some.inj hcol
    rw [hcc] at hnlt
    exact hnlt hcond

/-- C10 witness: the completeness rule instantiated on a ten-row league
column with one missing value under the default config. -/
theorem C10_witness_concrete :
    ((∃ f ∈ (validateCompleteness defaultConfig df10).1, f.column = some "league") ↔
      pyTruncInt ((df10.numRows : ℚ) * defaultConfig.maxMissingPercentage / 100) <
        (missingCount df10 "league" : Int)) ∧
    (∀ f ∈ (validateCompleteness defaultConfig df10).1, f.column = some "league" →
      f.severity = if criticalColumns.contains "league" then "critical" else "high") ∧
    ((df10.numRows : ℚ) * defaultConfig.maxMissingPercentage < 100 →
      0 < missingCount df10 "league" →
      (∃ f ∈ (validateCompleteness defaultConfig df10).1, f.column = some "league") ∧
      ∀ f ∈ (validateCompleteness defaultConfig df10).2, ¬ f.column = some "league") :=
  C10_completeness_rule defaultConfig df10 "league" (by decide) (by decide)

/-- The duplicate-detection cell equivalence is reflexive. -/
theorem pyEqNaN_refl (v : Value) : pyEqNaN v v = true := by
  cases v <;> simp [pyEqNaN, pyEq]

/-- The duplicate-detection row equivalence is reflexive. -/
theorem rowEqNaN_refl (a : List Value) : rowEqNaN a a = true := by
  unfold rowEqNaN
  rw [Bool.and_eq_true]
  refine ⟨by simp, ?_⟩
  rw [List.all_eq_true]
  intro p hp
  have : p.1 = p.2 := by
    induction a with
    | nil => simp at hp
    | cons x xs ih =>
      rw [List.zip_cons_cons, List.mem_cons] at hp
      rcases hp with h | h
      · rw [h]
      · exact ih h
  rw [this]
  exact pyEqNaN_refl p.2

/-- Defaulted indexing into a tabulated list returns the tabulated
value. -/
theorem getD_range_map (f : Nat → List Value) {n k : Nat} (h : k < n) :
    ((List.range n).map f).getD k [] = f k := by
  rw [List.getD_eq_getElem?_getD, List.getElem?_map, List.getElem?_range h]
  rfl

/-- A row is marked duplicated exactly when an earlier row carries an
equivalent tuple, mirroring the pandas default keep-first marking. -/
theorem mem_dupIndices (f : Nat → List Value) (n m : Nat) :
    m ∈ dupIndices ((List.range n).map f) ↔
      m < n ∧ ∃ k, k < m ∧ rowEqNaN (f k) (f m) = true := by
  unfold dupIndices
  rw [List.mem_filter, List.mem_range, List.length_map, List.length_range]
  constructor
  · rintro ⟨hm, hany⟩
    rw [List.any_eq_true] at hany
    obtain ⟨k, hk, heq⟩ := hany
    rw [List.mem_range] at hk
    rw [getD_range_map f (hk.trans hm), getD_range_map f hm] at heq
    exact ⟨hm, k, hk, heq⟩
  · rintro ⟨hm, k, hk, heq⟩
    refine ⟨hm, ?_⟩
    rw [List.any_eq_true]
    refine ⟨k, List.mem_range.mpr hk, ?_⟩
    rw [getD_range_map f (hk.trans hm), getD_range_map f hm]
    exact heq

/-- C5 (amended): whenever rows i < j share the same
(date, home_team, away_team) tuple with row i the first occurrence, the
duplicate rule emits exactly one high-severity duplicate-match finding,
and its row-index list contains the later row j but not the first
occurrence i — pandas duplicated marks every occurrence after the
first, never the first itself.  (The original claim said the list holds
both rows.) -/
theorem C5_amended_duplicate_match_rule (df : DataFrame) (i j : Nat)
    (hd : df.hasCol "date" = true) (hh : df.hasCol "home_team" = true)
    (ha : df.hasCol "away_team" = true)
    (hij : i < j) (hj : j < df.numRows)
    (heq : df.matchTuple i = df.matchTuple j)
    (hfirst : ∀ k, k < i → rowEqNaN (df.matchTuple k) (df.matchTuple i) = false) :
    ((validateDuplicates df).filter
        (fun f => f.ftype == "duplicate_match_error")).length = 1 ∧
    ∀ f ∈ validateDuplicates df, f.ftype = "duplicate_match_error" →
      f.severity = "high" ∧ j ∈ f.rows ∧ ¬ i ∈ f.rows := by
  have hjmem : j ∈ matchDupRows df :=
    (mem_dupIndices df.matchTuple df.numRows j).mpr
      ⟨hj, i, hij, by rw [heq]; exact rowEqNaN_refl _⟩
  have himem : ¬ i ∈ matchDupRows df := by
    intro hmem
    obtain ⟨_, k, hk, hkeq⟩ := (mem_dupIndices df.matchTuple df.numRows i).mp hmem
    rw [hfirst k hk] at hkeq
    exact Bool.false_ne_true hkeq
  have hne : ((matchDupRows df).isEmpty) = false := by
    rcases hMt : (matchDupRows df).isEmpty with h | h
    · rfl
    · rw [List.isEmpty_iff] at hMt
      rw [hMt] at hjmem
      exact absurd hjmem (List.not_mem_nil j)
  have hcols : (df.hasCol "date" && df.hasCol "home_team" && df.hasCol "away_team") = true := by
    rw [hd, hh, ha]; rfl
  have hbeq1 : ((exactDupFindingOf df).ftype == "duplicate_match_error") = false := rfl
  have hbeq2 : ((matchDupFindingOf df).ftype == "duplicate_match_error") = true := rfl
  unfold validateDuplicates
  rw [hcols, if_pos rfl, hne]
  simp only [Bool.false_eq_true, if_false]
  constructor
  · by_cases hex : (exactDupRows df).isEmpty
    · rw [if_pos hex]
      simp [List.filter, hbeq2]
    · rw [if_neg hex]
      simp [List.filter, hbeq1, hbeq2]
  · intro f hf hft
    have hfm : f = matchDupFindingOf df := by
      by_cases hex : (exactDupRows df).isEmpty
      · rw [if_pos hex] at hf
        simpa using hf
      · rw [if_neg hex] at hf
        rcases List.mem_append.mp hf with h | h
        · rw [List.mem_singleton] at h
          rw [h] at hft
          have hrec : (exactDupFindingOf df).ftype = "duplicate_record_error" := rfl
          rw [hrec] at hft
          exact absurd hft (by decide)
        · simpa using h
    rw [hfm]
    exact ⟨rfl, hjmem, himem⟩

/-- C5 witness: the amended duplicate law instantiated on the two-row
frame whose rows differ only in match_report. -/
theorem C5_witness_concrete :
    ((validateDuplicates dupDf).filter
        (fun f => f.ftype == "duplicate_match_error")).length = 1 ∧
    ∀ f ∈ validateDuplicates dupDf, f.ftype = "duplicate_match_error" →
      f.severity = "high" ∧ 1 ∈ f.rows ∧ ¬ 0 ∈ f.rows :=
  C5_amended_duplicate_match_rule dupDf 0 1 (by decide) (by decide) (by decide)
    (by decide) (by decide) (by decide)
    (fun k hk => absurd hk (Nat.not_lt_zero k))

/-- C6 (amended): on every dataset with both (string-typed) team
columns and at least one row whose home team equals its away team, the
team rule returns without raising and emits the identical high-severity
same-team finding exactly twice — once per iteration of the per-column
loop — each copy listing the first ten offending row indices with the
untruncated count in its total field.  (The original claim said exactly
one finding listing every such row.) -/
theorem C6_amended_same_team_rule (df : DataFrame)
    (hh : df.hasCol "home_team" = true) (ha : df.hasCol "away_team" = true)
    (oh : seriesDtypeObject (df.getCol "home_team") = true)
    (oa : seriesDtypeObject (df.getCol "away_team") = true)
    (hne : ¬ sameTeamIndices df = []) :
    validateTeams df = .ok (teamsOf df) ∧
    (teamsOf df).filter (fun f => f.ftype == "same_team_error") =
      [sameTeamFindingOf df, sameTeamFindingOf df] := by
  have hSame : sameTeamFindings df = [sameTeamFindingOf df] := by
    unfold sameTeamFindings
    have hc : (df.hasCol "home_team" && df.hasCol "away_team") = true := by
      rw [hh, ha]; rfl
    have hi : ((sameTeamIndices df).isEmpty) = false := by
      rcases h : (sameTeamIndices df).isEmpty with _ | _
      · rfl
      · exact absurd (List.isEmpty_iff.mp h) hne
    simp [hc, hi]
  have hTeam : ∀ c, df.hasCol c = true → seriesDtypeObject (df.getCol c) = true →
      ∃ base, teamColFindings df c = .ok (base ++ [sameTeamFindingOf df]) ∧
        ∀ f ∈ base, f.ftype = "empty_team_error" := by
    intro c hc oc
    unfold teamColFindings
    rw [hc]
    simp only [Bool.not_true, Bool.false_eq_true, if_false]
    rw [oc]
    simp only [Bool.not_true, Bool.false_eq_true, if_false, hSame]
    by_cases hemp : (List.filter (fun i =>
        match (df.getCol c).getD i Value.vNull with
        | Value.vNull => true
        | Value.vStr s => pyStrip s == ""
        | _ => false) (List.range (df.getCol c).length)).isEmpty
    · refine ⟨[], ?_, by intro f hf; simp at hf⟩
      rw [if_pos hemp]
    · rw [if_neg hemp]
      refine ⟨_, rfl, ?_⟩
      intro f hf
      rw [List.mem_singleton] at hf
      rw [hf]
  obtain ⟨b1, h1, hb1⟩ := hTeam "home_team" hh oh
  obtain ⟨b2, h2, hb2⟩ := hTeam "away_team" ha oa
  have hVT : validateTeams df =
      .ok ((b1 ++ [sameTeamFindingOf df]) ++ (b2 ++ [sameTeamFindingOf df])) := by
    unfold validateTeams
    rw [h1, h2]
  have hTO : teamsOf df =
      (b1 ++ [sameTeamFindingOf df]) ++ (b2 ++ [sameTeamFindingOf df]) := by
    unfold teamsOf
    rw [hVT]
  refine ⟨by rw [hVT, hTO], ?_⟩
  rw [hTO]
  have hbase : ∀ b : List Finding, (∀ f ∈ b, f.ftype = "empty_team_error") →
      b.filter (fun f => f.ftype == "same_team_error") = [] := by
    intro b hb
    apply List.filter_eq_nil_iff.mpr
    intro f hf
    rw [hb f hf]
    decide
  have hkeep : ([sameTeamFindingOf df]).filter
      (fun f => f.ftype == "same_team_error") = [sameTeamFindingOf df] := by
    simp [List.filter, sameTeamFindingOf]
  simp only [List.filter_append, hbase b1 hb1, hbase b2 hb2, hkeep]
  rfl

/-- C6 witness: the amended same-team law instantiated on the eleven-row
frame whose home and away teams coincide everywhere. -/
theorem C6_witness_concrete :
    validateTeams elevenDf = .ok (teamsOf elevenDf) ∧
    (teamsOf elevenDf).filter (fun f => f.ftype == "same_team_error") =
      [sameTeamFindingOf elevenDf, sameTeamFindingOf elevenDf] :=
  C6_amended_same_team_rule elevenDf (by decide) (by decide) (by decide)
    (by decide) (by decide)
